import Mathlib

/-!
Shallow embedding of the timber-beam-designer core (loads, beam analysis,
material data, design checks) over the rationals, together with theorems
settling the specification claims.  Python floats are modelled by exact
rationals; Python ValueError is modelled by Except.error; None-able strength
data is modelled by Option.
-/

/-! ## section_properties.py -/

/-- Rectangular timber section: breadth b and depth d in mm. -/
structure TimberSection where
  b : ℚ
  d : ℚ

/-- Cross-sectional area (mm^2). -/
def TimberSection.area (s : TimberSection) : ℚ := s.b * s.d

/-- Section modulus about major axis (mm^3): Zx = b*d^2/6. -/
def TimberSection.Zx (s : TimberSection) : ℚ := s.b * s.d ^ 2 / 6

/-- Second moment of area about major axis (mm^4): Ix = b*d^3/12. -/
def TimberSection.Ix (s : TimberSection) : ℚ := s.b * s.d ^ 3 / 12

/-- Effective shear area = 2/3 * b * d (mm^2). -/
def TimberSection.shear_area (s : TimberSection) : ℚ := 2 / 3 * s.b * s.d

/-- Bearing area = bearing_length * width (mm^2). -/
def TimberSection.bearing_area (s : TimberSection) (bearing_length_mm : ℚ) : ℚ :=
  bearing_length_mm * s.b

/-! ## loads.py -/

/-- Gravitational acceleration (m/s^2). -/
def GRAVITY : ℚ := 9.81

/-- A single load type entry with dead load, live load, tributary width. -/
structure LoadEntry where
  load_type : String
  dead_kpa : ℚ
  live_kpa : ℚ
  trib_width_m : ℚ

/-- Total pressure load for this type (kPa). -/
def LoadEntry.total_kpa (e : LoadEntry) : ℚ := e.dead_kpa + e.live_kpa

/-- UDL contribution from this load type (kN/m). -/
def LoadEntry.udl_kn_per_m (e : LoadEntry) : ℚ := e.total_kpa * e.trib_width_m

/-- Dead line load from this type (kN/m). -/
def LoadEntry.G_line (e : LoadEntry) : ℚ := e.dead_kpa * e.trib_width_m

/-- Live line load from this type (kN/m). -/
def LoadEntry.Q_line (e : LoadEntry) : ℚ := e.live_kpa * e.trib_width_m

/-- Collection of active load entries. -/
structure StructuredLoads where
  entries : List LoadEntry

/-- Total dead line load (kN/m): sum of all entries. -/
def StructuredLoads.total_G (s : StructuredLoads) : ℚ :=
  (s.entries.map LoadEntry.G_line).sum

/-- Total live line load (kN/m): sum of all entries. -/
def StructuredLoads.total_Q (s : StructuredLoads) : ℚ :=
  (s.entries.map LoadEntry.Q_line).sum

/-- Total UDL (kN/m). -/
def StructuredLoads.total_udl (s : StructuredLoads) : ℚ := s.total_G + s.total_Q

/-- Line loads in kN/m: dead G and live Q. -/
structure LineLoads where
  G : ℚ
  Q : ℚ

/-- ULS design load = max(1.35G, 1.2G + 1.5Q) in kN/m. -/
def LineLoads.w_uls (l : LineLoads) : ℚ := max (1.35 * l.G) (1.2 * l.G + 1.5 * l.Q)

/-- SLS short-term load = G + 0.7Q in kN/m. -/
def LineLoads.w_sls_short (l : LineLoads) : ℚ := l.G + 0.7 * l.Q

/-- SLS long-term load = G + 0.4Q in kN/m. -/
def LineLoads.w_sls_long (l : LineLoads) : ℚ := l.G + 0.4 * l.Q

/-- Which ULS combination governs, for reporting. -/
def LineLoads.uls_combo_label (l : LineLoads) : String :=
  if 1.35 * l.G ≥ 1.2 * l.G + 1.5 * l.Q then "1.35G" else "1.2G + 1.5Q"

/-- A single concentrated point load: pre-factored ULS and SLS values and
position a from the reference support (m). -/
structure PointLoad where
  P_uls : ℚ
  P_sls : ℚ
  a_m : ℚ

/-- Distance from right support = L - a. -/
def PointLoad.calc_b (pl : PointLoad) (span_m : ℚ) : ℚ := span_m - pl.a_m

/-- Check that point load position is within the span: 0 < a < L. -/
def PointLoad.validate (pl : PointLoad) (span_m : ℚ) : Bool :=
  decide (0 < pl.a_m ∧ pl.a_m < span_m)

/-- Beam self-weight as a line load (kN/m): density * b * d * g / 1000. -/
def calc_self_weight (b_mm d_mm density_kg_m3 : ℚ) : ℚ :=
  let b_m := b_mm / 1000
  let d_m := d_mm / 1000
  density_kg_m3 * b_m * d_m * GRAVITY / 1000

/-- Sum individual load type contributions into total line loads, plus beam
self-weight added to G (dead load). -/
def compute_line_loads (structured : StructuredLoads) (self_weight_kn_m : ℚ) : LineLoads :=
  { G := structured.total_G + self_weight_kn_m
    Q := structured.total_Q }

/-! ## beam_analysis.py -/

/-- Beam type tag for a simply supported beam. -/
def SIMPLY_SUPPORTED : String := "simply_supported"

/-- Beam type tag for an overhanging beam. -/
def OVERHANGING : String := "overhanging"

/-- Internal actions for a beam under UDL + optional point loads. -/
structure BeamActions where
  span_m : ℚ
  w_uls : ℚ
  w_sls_short : ℚ
  w_sls_long : ℚ
  M_star : ℚ
  V_star : ℚ
  R_max : ℚ
  beam_type : String := SIMPLY_SUPPORTED
  point_loads : List PointLoad := []
  M_udl : ℚ := 0
  M_point : ℚ := 0
  V_udl : ℚ := 0
  R_left : ℚ := 0
  R_right : ℚ := 0
  w_G_back : ℚ := 0
  w_psi_lQ_back : ℚ := 0
  w_G_cant : ℚ := 0
  w_psi_lQ_cant : ℚ := 0
  back_span_m : ℚ := 0
  cant_span_m : ℚ := 0
  w_uls_cant : ℚ := 0
  w_sls_short_cant : ℚ := 0
  w_sls_long_cant : ℚ := 0
  M_sagging : ℚ := 0
  M_hogging : ℚ := 0
  M_sagging_udl : ℚ := 0
  M_hogging_udl : ℚ := 0
  M_sagging_point : ℚ := 0
  M_hogging_point : ℚ := 0
  V_at_R2 : ℚ := 0
  point_loads_back : List PointLoad := []
  point_loads_cant : List PointLoad := []

/-- Max moment from a point load P at distance a from left support:
M = P*a*(L-a)/L. -/
def point_load_moment (P a L : ℚ) : ℚ := P * a * (L - a) / L

/-- Reactions for point load P at distance a from left support:
Ra = P*(L-a)/L, Rb = P*a/L. -/
def point_load_reactions (P a L : ℚ) : ℚ × ℚ :=
  (P * (L - a) / L, P * a / L)

/-- Midspan deflection for a point load P at distance a from the left support
on a simply supported beam: delta = P*b*(3L^2 - 4b^2)/(48*E*I) with
b = min(a, L-a); zero when L, E or Ix is non-positive. -/
def calc_deflection_point_load (P_kn a_m span_m E_mpa Ix_mm4 : ℚ) : ℚ :=
  let P_n := P_kn * 1000
  let L_mm := span_m * 1000
  let a_mm := a_m * 1000
  let b_mm := min a_mm (L_mm - a_mm)
  if L_mm ≤ 0 ∨ E_mpa ≤ 0 ∨ Ix_mm4 ≤ 0 then 0
  else P_n * b_mm * (3 * L_mm ^ 2 - 4 * b_mm ^ 2) / (48 * E_mpa * Ix_mm4)

/-- Analyse a simply supported beam under UDL + optional point loads,
by superposition of the UDL actions and each point load's actions. -/
def analyse_simply_supported (span_m w_uls w_sls_short w_sls_long : ℚ)
    (point_loads : List PointLoad) (w_G w_psi_lQ : ℚ) : BeamActions :=
  let L := span_m
  let M_udl := w_uls * L ^ 2 / 8
  let V_udl := w_uls * L / 2
  let R_udl := V_udl
  let M_point := (point_loads.map (fun pl => point_load_moment pl.P_uls pl.a_m L)).sum
  let R_left_point :=
    (point_loads.map (fun pl => (point_load_reactions pl.P_uls pl.a_m L).1)).sum
  let R_right_point :=
    (point_loads.map (fun pl => (point_load_reactions pl.P_uls pl.a_m L).2)).sum
  let M_star := M_udl + M_point
  let R_left := R_udl + R_left_point
  let R_right := R_udl + R_right_point
  let V_star := max R_left R_right
  let R_max := max R_left R_right
  { span_m := L
    w_uls := w_uls
    w_sls_short := w_sls_short
    w_sls_long := w_sls_long
    M_star := M_star
    V_star := V_star
    R_max := R_max
    beam_type := SIMPLY_SUPPORTED
    point_loads := point_loads
    M_udl := M_udl
    M_point := M_point
    V_udl := V_udl
    R_left := R_left
    R_right := R_right
    w_G_back := w_G
    w_psi_lQ_back := w_psi_lQ }

/-- Reactions for point load P at distance a_from_R1 from R1 on the back span:
R1 = P*(ell-a)/ell, R2 = P*a/ell. -/
def point_load_reactions_backspan (P a_from_R1 ell : ℚ) : ℚ × ℚ :=
  let b := ell - a_from_R1
  (P * b / ell, P * a_from_R1 / ell)

/-- Max sagging moment from a point load on the back span:
M = P*a*b/ell with b = ell - a. -/
def point_load_moment_backspan (P a_from_R1 ell : ℚ) : ℚ :=
  let b := ell - a_from_R1
  P * a_from_R1 * b / ell

/-- Reactions for point load P at distance x1 from R2 on the overhang:
R1 = -P*x1/ell (negative = uplift at R1), R2 = P*(ell + x1)/ell. -/
def point_load_reactions_overhang (P x1 ell : ℚ) : ℚ × ℚ :=
  (-P * x1 / ell, P * (ell + x1) / ell)

/-- Hogging moment at R2 from a point load at distance x1 from R2 on the
overhang: M_hog = P * x1. -/
def point_load_hogging_at_R2 (P x1 : ℚ) : ℚ := P * x1

/-- Straight-line body of the overhanging-beam analysis, reached after the
positive back span guard has been passed. -/
def analyse_overhanging_core
    (total_span_m cant_span_m w_uls_back w_sls_short_back w_sls_long_back
     w_uls_cant w_sls_short_cant w_sls_long_cant : ℚ)
    (point_loads_back point_loads_cant : List PointLoad)
    (w_G_back w_psi_lQ_back w_G_cant w_psi_lQ_cant : ℚ) : BeamActions :=
  let a := cant_span_m
  let ell := total_span_m - a
  let R1_udl_back := w_uls_back * ell / 2
  let R2_udl_back := w_uls_back * ell / 2
  let R1_udl_cant := -w_uls_cant * a ^ 2 / (2 * ell)
  let R2_udl_cant := w_uls_cant * a * (2 * ell + a) / (2 * ell)
  let M_hog_udl_cant := w_uls_cant * a ^ 2 / 2
  let R1_total_udl := R1_udl_back + R1_udl_cant
  let R2_total_udl := R2_udl_back + R2_udl_cant
  let M_sag_combined_udl :=
    if 0 < w_uls_back then
      let x_max_sag := R1_total_udl / w_uls_back
      if 0 < x_max_sag ∧ x_max_sag < ell then
        max (R1_total_udl * x_max_sag - w_uls_back * x_max_sag ^ 2 / 2) 0
      else
        max (max 0 (R1_total_udl * ell - w_uls_back * ell ^ 2 / 2)) 0
    else if 0 < R1_total_udl then
      max (R1_total_udl * ell) 0
    else 0
  let M_sag_point :=
    (point_loads_back.map (fun pl => point_load_moment_backspan pl.P_uls pl.a_m ell)).sum
  let M_hog_point :=
    (point_loads_cant.map (fun pl => point_load_hogging_at_R2 pl.P_uls pl.a_m)).sum
  let R1_point :=
    (point_loads_back.map (fun pl => (point_load_reactions_backspan pl.P_uls pl.a_m ell).1)).sum
      + (point_loads_cant.map (fun pl => (point_load_reactions_overhang pl.P_uls pl.a_m ell).1)).sum
  let R2_point :=
    (point_loads_back.map (fun pl => (point_load_reactions_backspan pl.P_uls pl.a_m ell).2)).sum
      + (point_loads_cant.map (fun pl => (point_load_reactions_overhang pl.P_uls pl.a_m ell).2)).sum
  let R1_total := R1_total_udl + R1_point
  let R2_total := R2_total_udl + R2_point
  let M_sagging_total := M_sag_combined_udl + M_sag_point
  let M_hogging_total := M_hog_udl_cant + M_hog_point
  let M_star := max M_sagging_total M_hogging_total
  let V_star := max (abs R1_total) (abs R2_total)
  let R_max := max (abs R1_total) (abs R2_total)
  let M_udl := max M_sag_combined_udl M_hog_udl_cant
  { span_m := total_span_m
    w_uls := w_uls_back
    w_sls_short := w_sls_short_back
    w_sls_long := w_sls_long_back
    M_star := M_star
    V_star := V_star
    R_max := R_max
    beam_type := OVERHANGING
    point_loads := point_loads_back ++ point_loads_cant
    M_udl := M_udl
    M_point := M_sag_point + M_hog_point
    V_udl := max (abs R1_total_udl) (abs R2_total_udl)
    R_left := R1_total
    R_right := R2_total
    w_G_back := w_G_back
    w_psi_lQ_back := w_psi_lQ_back
    w_G_cant := w_G_cant
    w_psi_lQ_cant := w_psi_lQ_cant
    back_span_m := ell
    cant_span_m := a
    w_uls_cant := w_uls_cant
    w_sls_short_cant := w_sls_short_cant
    w_sls_long_cant := w_sls_long_cant
    M_sagging := M_sagging_total
    M_hogging := M_hogging_total
    M_sagging_udl := M_sag_combined_udl
    M_hogging_udl := M_hog_udl_cant
    M_sagging_point := M_sag_point
    M_hogging_point := M_hog_point
    V_at_R2 := abs R2_total
    point_loads_back := point_loads_back
    point_loads_cant := point_loads_cant }

/-- Analyse a beam overhanging one support.  Geometry: R1 back span ell to R2,
overhang a beyond R2; total span = ell + a.  Raises (Except.error) when the
back span total - a is not strictly positive. -/
def analyse_overhanging
    (total_span_m cant_span_m w_uls_back w_sls_short_back w_sls_long_back
     w_uls_cant w_sls_short_cant w_sls_long_cant : ℚ)
    (point_loads_back point_loads_cant : List PointLoad)
    (w_G_back w_psi_lQ_back w_G_cant w_psi_lQ_cant : ℚ) : Except String BeamActions :=
  if total_span_m - cant_span_m ≤ 0 then
    Except.error "Back span must be positive"
  else
    Except.ok (analyse_overhanging_core total_span_m cant_span_m
      w_uls_back w_sls_short_back w_sls_long_back
      w_uls_cant w_sls_short_cant w_sls_long_cant
      point_loads_back point_loads_cant
      w_G_back w_psi_lQ_back w_G_cant w_psi_lQ_cant)

/-- Mid-span deflection for a simply supported beam under UDL:
delta = 5*w*L^4 / (384*E*I), with w in N/mm (= kN/m), L in mm. -/
def calc_deflection (w_kn_per_m span_m E_mpa Ix_mm4 : ℚ) : ℚ :=
  let w_n_per_mm := w_kn_per_m
  let L_mm := span_m * 1000
  5 * w_n_per_mm * L_mm ^ 4 / (384 * E_mpa * Ix_mm4)

/-- Total midspan deflection for a simply supported beam: UDL deflection plus
the sum of point load deflections (superposition). -/
def calc_total_deflection (w_kn_per_m span_m E_mpa Ix_mm4 : ℚ)
    (point_loads : List PointLoad) : ℚ :=
  let delta_udl := calc_deflection w_kn_per_m span_m E_mpa Ix_mm4
  let delta_point :=
    (point_loads.map (fun pl =>
      calc_deflection_point_load pl.P_sls pl.a_m span_m E_mpa Ix_mm4)).sum
  delta_udl + delta_point

/-! ## material_data.py -/

/-- Material properties for a named timber grade.  Strength values in MPa,
E in MPa.  fs and fp are None where data is not applicable. -/
structure MaterialGrade where
  fb : ℚ
  fs : Option ℚ
  fp : Option ℚ
  E : ℚ
  phi : ℚ
  k2 : ℚ
  density : ℚ
  has_wet : Bool
  rho_b : ℚ

/-- Grade SG8 (NZ verified sawn timber, Table ZZ2.1). -/
def SG8 : MaterialGrade :=
  { fb := 14, fs := some 3.8, fp := some 6.9, E := 8000, phi := 0.8, k2 := 2,
    density := 450, has_wet := true, rho_b := 0.76 }

/-- Grade SG8 Wet in Use. -/
def SG8_wet_in_use : MaterialGrade :=
  { fb := 11.7, fs := some 2.4, fp := some 5.3, E := 6500, phi := 0.8, k2 := 2,
    density := 550, has_wet := false, rho_b := 0.76 }

/-- Grade Prolam PL8. -/
def prolam_PL8 : MaterialGrade :=
  { fb := 19, fs := some 3.7, fp := some 8.9, E := 8000, phi := 0.8, k2 := 1.5,
    density := 500, has_wet := true, rho_b := 0.88 }

/-- Grade Prolam PL8 Wet. -/
def prolam_PL8_wet : MaterialGrade :=
  { fb := 15.2, fs := some 2.5, fp := some 5.3, E := 6400, phi := 0.8, k2 := 1.5,
    density := 600, has_wet := false, rho_b := 0.88 }

/-- Grade Prolam PL10. -/
def prolam_PL10 : MaterialGrade :=
  { fb := 22, fs := some 3.7, fp := some 8.9, E := 10000, phi := 0.8, k2 := 1.5,
    density := 530, has_wet := true, rho_b := 0.85 }

/-- Grade Prolam PL10 Wet. -/
def prolam_PL10_wet : MaterialGrade :=
  { fb := 17.6, fs := some 2.5, fp := some 5.3, E := 8000, phi := 0.8, k2 := 1.5,
    density := 630, has_wet := false, rho_b := 0.85 }

/-- Grade Prolam PL12. -/
def prolam_PL12 : MaterialGrade :=
  { fb := 25, fs := some 3.7, fp := some 8.9, E := 11500, phi := 0.8, k2 := 1.5,
    density := 560, has_wet := true, rho_b := 0.84 }

/-- Grade Prolam PL12 Wet. -/
def prolam_PL12_wet : MaterialGrade :=
  { fb := 20, fs := some 2.5, fp := some 5.3, E := 9200, phi := 0.8, k2 := 1.5,
    density := 660, has_wet := false, rho_b := 0.84 }

/-- Grade Prolam PL17. -/
def prolam_PL17 : MaterialGrade :=
  { fb := 42, fs := some 3.7, fp := some 8.9, E := 16700, phi := 0.8, k2 := 1.5,
    density := 620, has_wet := true, rho_b := 0.91 }

/-- Grade Prolam PL17 Wet. -/
def prolam_PL17_wet : MaterialGrade :=
  { fb := 33.6, fs := some 2.5, fp := some 5.3, E := 13400, phi := 0.8, k2 := 1.5,
    density := 720, has_wet := false, rho_b := 0.91 }

/-- Grade hySPAN (LVL). -/
def hySPAN : MaterialGrade :=
  { fb := 48, fs := some 4.6, fp := some 12, E := 13200, phi := 0.9, k2 := 2,
    density := 600, has_wet := false, rho_b := 1.08 }

/-- Grade LVL. -/
def LVL : MaterialGrade :=
  { fb := 42, fs := some 4.6, fp := some 12, E := 13200, phi := 0.9, k2 := 2,
    density := 600, has_wet := false, rho_b := 1.01 }

/-- Grade hyONE (LVL). -/
def hyONE : MaterialGrade :=
  { fb := 48, fs := some 4.6, fp := some 12, E := 16000, phi := 0.9, k2 := 2,
    density := 600, has_wet := false, rho_b := 0.99 }

/-- Grade hyCHORD (LVL). -/
def hyCHORD : MaterialGrade :=
  { fb := 48, fs := some 4.6, fp := some 11.11, E := 11000, phi := 0.9, k2 := 2,
    density := 600, has_wet := false, rho_b := 1.18 }

/-- Grade Nelson Pine (LVL). -/
def nelson_pine : MaterialGrade :=
  { fb := 42, fs := some 5, fp := some 12, E := 10700, phi := 0.9, k2 := 2,
    density := 600, has_wet := false, rho_b := 1.12 }

/-- Grade Macrocarpa: no shear or bearing strength data (fs = fp = None). -/
def Macrocarpa : MaterialGrade :=
  { fb := 87.8, fs := none, fp := none, E := 5790, phi := 0.8, k2 := 2,
    density := 480, has_wet := false, rho_b := 0.76 }

/-- Grade hy90 (LVL). -/
def hy90 : MaterialGrade :=
  { fb := 34, fs := some 4.6, fp := some 12, E := 9500, phi := 0.9, k2 := 2,
    density := 600, has_wet := false, rho_b := 1.07 }

/-- The fixed grade lookup table, keyed by grade name. -/
def TIMBER_GRADES : List (String × MaterialGrade) :=
  [("SG8", SG8), ("SG8 Wet in Use", SG8_wet_in_use),
   ("Prolam PL8", prolam_PL8), ("Prolam PL8 Wet", prolam_PL8_wet),
   ("Prolam PL10", prolam_PL10), ("Prolam PL10 Wet", prolam_PL10_wet),
   ("Prolam PL12", prolam_PL12), ("Prolam PL12 Wet", prolam_PL12_wet),
   ("Prolam PL17", prolam_PL17), ("Prolam PL17 Wet", prolam_PL17_wet),
   ("hySPAN", hySPAN), ("LVL", LVL), ("hyONE", hyONE), ("hyCHORD", hyCHORD),
   ("Nelson Pine", nelson_pine), ("Macrocarpa", Macrocarpa), ("hy90", hy90)]

/-- Moisture condition factor for seasoned timber (Clause 2.4.2). -/
def K4_DRY : ℚ := 1

/-- Minimum moisture condition factor for wet conditions. -/
def K4_WET : ℚ := 0.7

/-- Temperature factor, 1.0 for NZ (Clause 2.4.3). -/
def K6_DEFAULT : ℚ := 1

/-- Stability factor k12 per Clause 3.2.4, a piecewise function of the
product rho_b * S1:
(a) product <= 10: 1;  (b) 10 < product <= 20: 1.5 - 0.05*product;
(c) product > 20: 200 / product^2. -/
def get_k12 (rho_b S1 : ℚ) : ℚ :=
  let product := rho_b * S1
  if product ≤ 10 then 1
  else if product ≤ 20 then 1.5 - 0.05 * product
  else 200 / product ^ 2

/-! ## design_checks.py -/

/-- Result of a single design check. -/
structure CheckResult where
  name : String
  demand : ℚ
  capacity : ℚ
  utilisation : ℚ
  passed : Bool
  unit : String := ""
  details : String := ""

/-- Bending check per Eq. 3.2(2): Md = phi*k1*k4*k6*k9*k12*fb*Zx >= M_star,
capacity converted from Nmm to kNm. -/
def check_bending (M_star_knm : ℚ) (sec : TimberSection) (grade : MaterialGrade)
    (k1 k6 k9 k12 : ℚ) : CheckResult :=
  let phi := grade.phi
  let fb := grade.fb
  let Zx := sec.Zx
  let phi_Mx := phi * k1 * K4_DRY * k6 * k9 * k12 * fb * Zx
  let phi_Mx_knm := phi_Mx / 1000000
  let M_star := M_star_knm
  let util := if 0 < phi_Mx_knm then M_star / phi_Mx_knm * 100 else 999
  { name := "Bending"
    demand := M_star
    capacity := phi_Mx_knm
    utilisation := util
    passed := decide (util ≤ 100)
    unit := "kNm"
    details := "phi=" ++ toString phi ++ ", k1=" ++ toString k1
      ++ ", k4=" ++ toString K4_DRY ++ ", k6=" ++ toString k6
      ++ ", k9=" ++ toString k9 ++ ", k12=" ++ toString k12
      ++ ", fb=" ++ toString fb ++ " MPa, Zx=" ++ toString Zx ++ " mm^3" }

/-- Shear check per Eq. 3.2(14): Vd = phi*k1*k4*k6*fs*As >= V_star.
When the grade has no shear strength data it returns a zero-capacity failed
result flagged for manual checking instead of raising. -/
def check_shear (V_star_kn : ℚ) (sec : TimberSection) (grade : MaterialGrade)
    (k1 k6 : ℚ) : CheckResult :=
  let phi := grade.phi
  match grade.fs with
  | none =>
    { name := "Shear"
      demand := V_star_kn
      capacity := 0
      utilisation := 999
      passed := false
      unit := "kN"
      details := "Shear data not available for this grade -- MANUAL CHECK REQUIRED" }
  | some fs =>
    let As := sec.shear_area
    let phi_Vs := phi * k1 * K4_DRY * k6 * fs * As / 1000
    let util := if 0 < phi_Vs then V_star_kn / phi_Vs * 100 else 999
    { name := "Shear"
      demand := V_star_kn
      capacity := phi_Vs
      utilisation := util
      passed := decide (util ≤ 100)
      unit := "kN"
      details := "phi=" ++ toString phi ++ ", k1=" ++ toString k1
        ++ ", k4=" ++ toString K4_DRY ++ ", k6=" ++ toString k6
        ++ ", fs=" ++ toString fs ++ " MPa, As=" ++ toString As ++ " mm^2" }

/-- Bearing check per Eq. 3.2(16): Nd = phi*k1*k4*k6*k7*fp*Ap >= N_star.
When the grade has no bearing strength data it returns a zero-capacity failed
result flagged for manual checking instead of raising. -/
def check_bearing (R_max_kn : ℚ) (sec : TimberSection) (grade : MaterialGrade)
    (k1 bearing_length_mm k6 k7 : ℚ) : CheckResult :=
  let phi := grade.phi
  match grade.fp with
  | none =>
    { name := "Bearing"
      demand := R_max_kn
      capacity := 0
      utilisation := 999
      passed := false
      unit := "kN"
      details := "Bearing data not available for this grade -- MANUAL CHECK REQUIRED" }
  | some fp =>
    let Ap := sec.bearing_area bearing_length_mm
    let phi_Np := phi * k1 * K4_DRY * k6 * k7 * fp * Ap / 1000
    let util := if 0 < phi_Np then R_max_kn / phi_Np * 100 else 999
    { name := "Bearing"
      demand := R_max_kn
      capacity := phi_Np
      utilisation := util
      passed := decide (util ≤ 100)
      unit := "kN"
      details := "phi=" ++ toString phi ++ ", k1=" ++ toString k1
        ++ ", k4=" ++ toString K4_DRY ++ ", k6=" ++ toString k6
        ++ ", k7=" ++ toString k7
        ++ ", fp=" ++ toString fp ++ " MPa, Ap=" ++ toString Ap ++ " mm^2" }

/-- Deflection checks for simply supported beams, returning the short-term
and long-term CheckResult pair.  Long-term deflection per Cl 2.4.5.2 is
k2 * delta(G) + delta(psi_l * Q) when the G/Q breakdown is available
(w_G > 0 or w_psi_lQ > 0), with k2 applied only to the dead-load component;
otherwise k2 times the combined elastic SLS-long deflection. -/
def check_deflection (span_m : ℚ) (sec : TimberSection) (grade : MaterialGrade)
    (w_sls_short w_sls_long deflection_limit : ℚ)
    (point_loads : List PointLoad) (beam_type : String)
    (w_G w_psi_lQ : ℚ) : CheckResult × CheckResult :=
  let E := grade.E
  let k2 := grade.k2
  let Ix := sec.Ix
  let delta_short := calc_total_deflection w_sls_short span_m E Ix point_loads
  let delta_long :=
    if 0 < w_G ∨ 0 < w_psi_lQ then
      k2 * calc_total_deflection w_G span_m E Ix []
        + calc_total_deflection w_psi_lQ span_m E Ix point_loads
    else
      k2 * calc_total_deflection w_sls_long span_m E Ix point_loads
  let allowable := span_m * 1000 / deflection_limit
  let util_st := if 0 < allowable then delta_short / allowable * 100 else 999
  let util_lt := if 0 < allowable then delta_long / allowable * 100 else 999
  ({ name := "Deflection (short-term)"
     demand := delta_short
     capacity := allowable
     utilisation := util_st
     passed := decide (util_st ≤ 100)
     unit := "mm"
     details := "E=" ++ toString E ++ " MPa, Ix=" ++ toString Ix
       ++ " mm^4, w_sls_short=" ++ toString w_sls_short
       ++ " kN/m (G+0.7Q), delta=" ++ toString delta_short
       ++ " mm, allow=L/" ++ toString deflection_limit
       ++ "=" ++ toString allowable ++ " mm" },
   { name := "Deflection (long-term)"
     demand := delta_long
     capacity := allowable
     utilisation := util_lt
     passed := decide (util_lt ≤ 100)
     unit := "mm"
     details := "E=" ++ toString E ++ " MPa, Ix=" ++ toString Ix
       ++ " mm^4, k2=" ++ toString k2
       ++ ", delta_LT = k2*delta(G) + delta(0.4Q), delta_long="
       ++ toString delta_long ++ " mm, allow=L/" ++ toString deflection_limit
       ++ "=" ++ toString allowable ++ " mm" })

/-- Details string for an uplifted R1 support: reports the signed reaction and
the need for a hold-down connection. -/
def uplift_details (R1 : ℚ) : String :=
  "R1 is in UPLIFT (" ++ toString R1 ++ " kN) -- hold-down connection required"

/-- Bearing check for both supports of an overhanging beam, returning
(result_R1, result_R2).  If R1 is in uplift (negative) the R1 bearing check is
replaced by a passed, zero-demand informational result noting that a hold-down
connection is required. -/
def check_bearing_overhanging (ba : BeamActions) (sec : TimberSection)
    (grade : MaterialGrade) (k1 bearing_length_mm k6 k7 : ℚ) :
    CheckResult × CheckResult :=
  let R1 := ba.R_left
  let R2 := ba.R_right
  let result_R2 :=
    { check_bearing (abs R2) sec grade k1 bearing_length_mm k6 k7 with
        name := "Bearing (R2)" }
  let result_R1 :=
    if R1 < 0 then
      let phi := grade.phi
      let Ap := sec.bearing_area bearing_length_mm
      let cap :=
        match grade.fp with
        | some fp => if fp = 0 then 0 else phi * k1 * K4_DRY * k6 * k7 * fp * Ap / 1000
        | none => 0
      { name := "Bearing (R1)"
        demand := 0
        capacity := cap
        utilisation := 0
        passed := true
        unit := "kN"
        details := uplift_details R1 }
    else
      { check_bearing (abs R1) sec grade k1 bearing_length_mm k6 k7 with
          name := "Bearing (R1)" }
  (result_R1, result_R2)

/-! ## Theorems settling the claims -/

/-- C1: for every positive span L and every UDL w, analyse_simply_supported
with w as the ULS UDL and no point loads returns M_star = w*L^2/8 and
V_star = R_max = w*L/2, with R_left = R_right = w*L/2, exactly. -/
theorem analyse_simply_supported_udl_actions
    (L w ws wl wG wQ : ℚ) (hL : 0 < L) :
    (analyse_simply_supported L w ws wl [] wG wQ).M_star = w * L ^ 2 / 8 ∧
    (analyse_simply_supported L w ws wl [] wG wQ).V_star = w * L / 2 ∧
    (analyse_simply_supported L w ws wl [] wG wQ).R_max = w * L / 2 ∧
    (analyse_simply_supported L w ws wl [] wG wQ).R_left = w * L / 2 ∧
    (analyse_simply_supported L w ws wl [] wG wQ).R_right = w * L / 2 := by
  refine ⟨?_, ?_, ?_, ?_, ?_⟩ <;> simp [analyse_simply_supported]

/-- Witness for C1 at L = 4 m, w = 5 kN/m. -/
theorem analyse_simply_supported_udl_actions_witness :
    (analyse_simply_supported 4 5 0 0 [] 0 0).M_star = 5 * 4 ^ 2 / 8 ∧
    (analyse_simply_supported 4 5 0 0 [] 0 0).V_star = 5 * 4 / 2 ∧
    (analyse_simply_supported 4 5 0 0 [] 0 0).R_max = 5 * 4 / 2 ∧
    (analyse_simply_supported 4 5 0 0 [] 0 0).R_left = 5 * 4 / 2 ∧
    (analyse_simply_supported 4 5 0 0 [] 0 0).R_right = 5 * 4 / 2 :=
  analyse_simply_supported_udl_actions 4 5 0 0 0 0 (by decide)

/-- Overhanging beam with UDL w on the overhang only (all back-span loads
zero, no point loads): reaction and hogging formulas, for any positive
overhang a and back span total - a. -/
theorem overhang_cant_udl_aux (total a w ws wl : ℚ)
    (ha : 0 < a) (htot : a < total) :
    ∃ ba, analyse_overhanging total a 0 0 0 w ws wl [] [] 0 0 0 0 = Except.ok ba ∧
      ba.R_left = -(w * a ^ 2) / (2 * (total - a)) ∧
      ba.R_right = w * a * (2 * (total - a) + a) / (2 * (total - a)) ∧
      ba.M_hogging = w * a ^ 2 / 2 ∧
      (0 < w → ba.R_left < 0) := by
  have hell : 0 < total - a := sub_pos.mpr htot
  refine ⟨analyse_overhanging_core total a 0 0 0 w ws wl [] [] 0 0 0 0,
    ?_, ?_, ?_, ?_, ?_⟩
  · unfold analyse_overhanging
    rw [if_neg (not_le.mpr hell)]
  · simp [analyse_overhanging_core]
  · simp [analyse_overhanging_core]
  · simp [analyse_overhanging_core]
  · intro hw
    have hnum : 0 < w * a ^ 2 := mul_pos hw (pow_pos ha 2)
    have hden : 0 < 2 * (total - a) := by linarith
    have : -(w * a ^ 2) / (2 * (total - a)) < 0 :=
      div_neg_of_neg_of_pos (neg_lt_zero.mpr hnum) hden
    simpa [analyse_overhanging_core] using this

/-- C2: for every overhang a > 0 and back span total - a > 0,
analyse_overhanging with a UDL w on the overhang only returns
R_left = -w*a^2/(2*ell) (uplift when w > 0), R_right = w*a*(2*ell+a)/(2*ell)
and M_hogging = w*a^2/2; in particular for total span 4 m, a = 1 m,
w = 5 kN/m this gives R_left = -5/6 kN, R_right = 35/6 kN and
M_hogging = 5/2 kNm. -/
theorem analyse_overhanging_cant_udl (total a w ws wl : ℚ)
    (ha : 0 < a) (htot : a < total) :
    (∃ ba, analyse_overhanging total a 0 0 0 w ws wl [] [] 0 0 0 0 = Except.ok ba ∧
      ba.R_left = -(w * a ^ 2) / (2 * (total - a)) ∧
      ba.R_right = w * a * (2 * (total - a) + a) / (2 * (total - a)) ∧
      ba.M_hogging = w * a ^ 2 / 2 ∧
      (0 < w → ba.R_left < 0)) ∧
    (∃ ba, analyse_overhanging 4 1 0 0 0 5 0 0 [] [] 0 0 0 0 = Except.ok ba ∧
      ba.R_left = -(5 / 6) ∧ ba.R_right = 35 / 6 ∧ ba.M_hogging = 5 / 2) := by
  refine ⟨overhang_cant_udl_aux total a w ws wl ha htot, ?_⟩
  obtain ⟨ba, h1, h2, h3, h4, _⟩ :=
    overhang_cant_udl_aux 4 1 5 0 0 (by norm_num) (by norm_num)
  refine ⟨ba, h1, ?_, ?_, ?_⟩
  · rw [h2]; norm_num
  · rw [h3]; norm_num
  · rw [h4]; norm_num

/-- Witness for C2: the concrete overhang scenario total = 4, a = 1, w = 5. -/
theorem analyse_overhanging_cant_udl_witness :
    ∃ ba, analyse_overhanging 4 1 0 0 0 5 0 0 [] [] 0 0 0 0 = Except.ok ba ∧
      ba.R_left = -(5 / 6) ∧ ba.R_right = 35 / 6 ∧ ba.M_hogging = 5 / 2 :=
  (analyse_overhanging_cant_udl 4 1 5 0 0 (by decide) (by decide)).2

/-- C3: analyse_overhanging returns the configuration error exactly when the
back span total - cant is non-positive, and returns a BeamActions result
exactly when the back span is strictly positive. -/
theorem analyse_overhanging_guard
    (total a wb wsb wlb wc wsc wlc : ℚ) (plb plc : List PointLoad)
    (wG wQ wGc wQc : ℚ) :
    (analyse_overhanging total a wb wsb wlb wc wsc wlc plb plc wG wQ wGc wQc
        = Except.error "Back span must be positive" ↔ total - a ≤ 0) ∧
    ((∃ ba, analyse_overhanging total a wb wsb wlb wc wsc wlc plb plc wG wQ wGc wQc
        = Except.ok ba) ↔ 0 < total - a) := by
  unfold analyse_overhanging
  by_cases h : total - a ≤ 0
  · rw [if_pos h]
    exact ⟨by simp [h], by simp [not_lt.mpr h]⟩
  · rw [if_neg h]
    exact ⟨by simp [h], by simp [not_le.mp h]⟩

/-- C4: in the simply-supported deflection check the long-term deflection is
k2 * delta(w_G alone, no point loads) + delta(w_psi_lQ alone, with the SLS
point loads) whenever the G/Q breakdown is available (w_G > 0 or
w_psi_lQ > 0); otherwise it is k2 times the whole elastic deflection under
the combined w_sls_long loading with point loads. -/
theorem check_deflection_longterm_creep (span : ℚ) (sec : TimberSection)
    (g : MaterialGrade) (ws wl dl : ℚ) (pls : List PointLoad) (bt : String)
    (wG wQ : ℚ) :
    (check_deflection span sec g ws wl dl pls bt wG wQ).2.demand =
      if 0 < wG ∨ 0 < wQ then
        g.k2 * calc_total_deflection wG span g.E sec.Ix []
          + calc_total_deflection wQ span g.E sec.Ix pls
      else
        g.k2 * calc_total_deflection wl span g.E sec.Ix pls := rfl

/-- C5: for every grade with missing shear strength data (fs = none),
check_shear returns the degraded zero-capacity failed result naming a
required manual check, and never fails. -/
theorem check_shear_missing_fs (V : ℚ) (sec : TimberSection)
    (g : MaterialGrade) (k1 k6 : ℚ) (h : g.fs = none) :
    check_shear V sec g k1 k6 =
      { name := "Shear", demand := V, capacity := 0, utilisation := 999,
        passed := false, unit := "kN",
        details := "Shear data not available for this grade -- MANUAL CHECK REQUIRED" } := by
  simp [check_shear, h]

/-- Witness for C5 at the Macrocarpa grade, which has fs = none. -/
theorem check_shear_missing_fs_witness :
    Macrocarpa.fs = none ∧
    check_shear 5 ⟨90, 240⟩ Macrocarpa 1 1 =
      { name := "Shear", demand := 5, capacity := 0, utilisation := 999,
        passed := false, unit := "kN",
        details := "Shear data not available for this grade -- MANUAL CHECK REQUIRED" } :=
  ⟨rfl, check_shear_missing_fs 5 ⟨90, 240⟩ Macrocarpa 1 1 rfl⟩

/-- C6: for an overhanging-beam result with R_left < 0 (uplift),
check_bearing_overhanging returns for R1 a zero-demand, zero-utilisation,
passed informational result whose details report the signed uplift value and
the required hold-down connection; the R2 result is always the ordinary
bearing check on the absolute right reaction. -/
theorem check_bearing_overhanging_uplift (ba : BeamActions)
    (sec : TimberSection) (g : MaterialGrade) (k1 blen k6 k7 : ℚ) :
    ((check_bearing_overhanging ba sec g k1 blen k6 k7).2 =
      { check_bearing (abs ba.R_right) sec g k1 blen k6 k7 with
          name := "Bearing (R2)" }) ∧
    (ba.R_left < 0 →
      (check_bearing_overhanging ba sec g k1 blen k6 k7).1.demand = 0 ∧
      (check_bearing_overhanging ba sec g k1 blen k6 k7).1.utilisation = 0 ∧
      (check_bearing_overhanging ba sec g k1 blen k6 k7).1.passed = true ∧
      (check_bearing_overhanging ba sec g k1 blen k6 k7).1.details
        = uplift_details ba.R_left) := by
  refine ⟨rfl, fun h => ?_⟩
  simp [check_bearing_overhanging, if_pos h]

/-- A concrete overhanging-beam result with the left support in uplift. -/
def upliftExample : BeamActions :=
  { span_m := 4, w_uls := 0, w_sls_short := 0, w_sls_long := 0,
    M_star := 0, V_star := 0, R_max := 0, R_left := -1, R_right := 2,
    beam_type := OVERHANGING }

/-- Witness for C6 on a result with R_left = -1 kN. -/
theorem check_bearing_overhanging_uplift_witness :
    upliftExample.R_left < 0 ∧
    ((check_bearing_overhanging upliftExample ⟨90, 240⟩ SG8 1 50 1 1).1.demand = 0 ∧
     (check_bearing_overhanging upliftExample ⟨90, 240⟩ SG8 1 50 1 1).1.utilisation = 0 ∧
     (check_bearing_overhanging upliftExample ⟨90, 240⟩ SG8 1 50 1 1).1.passed = true ∧
     (check_bearing_overhanging upliftExample ⟨90, 240⟩ SG8 1 50 1 1).1.details
       = uplift_details upliftExample.R_left) :=
  ⟨by decide,
   (check_bearing_overhanging_uplift upliftExample ⟨90, 240⟩ SG8 1 50 1 1).2 (by decide)⟩

/-- C7: LineLoads derives w_uls = max(1.35G, 1.2G + 1.5Q),
w_sls_short = G + 0.7Q, w_sls_long = G + 0.4Q, and the governing-combination
label is the string for 1.35G exactly when 1.35G >= 1.2G + 1.5Q and the
string for 1.2G + 1.5Q otherwise. -/
theorem lineloads_combinations (G Q : ℚ) :
    (LineLoads.mk G Q).w_uls = max (1.35 * G) (1.2 * G + 1.5 * Q) ∧
    (LineLoads.mk G Q).w_sls_short = G + 0.7 * Q ∧
    (LineLoads.mk G Q).w_sls_long = G + 0.4 * Q ∧
    ((LineLoads.mk G Q).uls_combo_label = "1.35G" ↔ 1.2 * G + 1.5 * Q ≤ 1.35 * G) ∧
    ((LineLoads.mk G Q).uls_combo_label = "1.2G + 1.5Q" ↔
      ¬ 1.2 * G + 1.5 * Q ≤ 1.35 * G) := by
  refine ⟨rfl, rfl, rfl, ?_, ?_⟩ <;>
    · unfold LineLoads.uls_combo_label
      split_ifs with h
      · simpa using h
      · simpa using h

/-- C8: compute_line_loads returns G = sum of dead contributions plus
self-weight (self-weight never added to Q) and Q = sum of live contributions,
and an empty entry collection yields G = self-weight and Q = 0. -/
theorem compute_line_loads_sums (s : StructuredLoads) (sw : ℚ) :
    (compute_line_loads s sw).G
        = (s.entries.map (fun e => e.dead_kpa * e.trib_width_m)).sum + sw ∧
    (compute_line_loads s sw).Q
        = (s.entries.map (fun e => e.live_kpa * e.trib_width_m)).sum ∧
    (s.entries = [] →
      (compute_line_loads s sw).G = sw ∧ (compute_line_loads s sw).Q = 0) := by
  refine ⟨rfl, rfl, fun h => ?_⟩
  constructor <;>
    simp [compute_line_loads, StructuredLoads.total_G, StructuredLoads.total_Q, h]

/-- Witness for C8 on the empty entry collection with self-weight 3. -/
theorem compute_line_loads_sums_witness :
    (compute_line_loads ⟨[]⟩ 3).G = 3 ∧ (compute_line_loads ⟨[]⟩ 3).Q = 0 :=
  (compute_line_loads_sums ⟨[]⟩ 3).2.2 rfl

/-- C9: check_bending has capacity phi*k1*k4*k6*k9*k12*fb*Zx/1e6; utilisation
is demand/capacity*100 when the capacity is positive and the sentinel 999
otherwise; the check passes exactly when utilisation <= 100 (so 100 passes);
and utilisation is monotone non-decreasing in the demand at fixed positive
capacity. -/
theorem check_bending_utilisation (M M2 : ℚ) (sec : TimberSection)
    (g : MaterialGrade) (k1 k6 k9 k12 : ℚ) :
    (check_bending M sec g k1 k6 k9 k12).capacity
        = g.phi * k1 * K4_DRY * k6 * k9 * k12 * g.fb * sec.Zx / 1000000 ∧
    (check_bending M sec g k1 k6 k9 k12).utilisation
        = (if 0 < (check_bending M sec g k1 k6 k9 k12).capacity
            then M / (check_bending M sec g k1 k6 k9 k12).capacity * 100
            else 999) ∧
    ((check_bending M sec g k1 k6 k9 k12).passed = true
        ↔ (check_bending M sec g k1 k6 k9 k12).utilisation ≤ 100) ∧
    (0 < (check_bending M sec g k1 k6 k9 k12).capacity → M ≤ M2 →
      (check_bending M sec g k1 k6 k9 k12).utilisation
        ≤ (check_bending M2 sec g k1 k6 k9 k12).utilisation) := by
  refine ⟨rfl, rfl, ?_, ?_⟩
  · simp [check_bending]
  · intro hcap hM
    have hcap' : 0 < g.phi * k1 * K4_DRY * k6 * k9 * k12 * g.fb * sec.Zx / 1000000 :=
      hcap
    show (if 0 < g.phi * k1 * K4_DRY * k6 * k9 * k12 * g.fb * sec.Zx / 1000000
            then M / (g.phi * k1 * K4_DRY * k6 * k9 * k12 * g.fb * sec.Zx / 1000000) * 100
            else 999)
        ≤ (if 0 < g.phi * k1 * K4_DRY * k6 * k9 * k12 * g.fb * sec.Zx / 1000000
            then M2 / (g.phi * k1 * K4_DRY * k6 * k9 * k12 * g.fb * sec.Zx / 1000000) * 100
            else 999)
    rw [if_pos hcap', if_pos hcap']
    gcongr

/-- Witness for C9 with SG8, a 90x240 section, unit factors, demands 1 and 2. -/
theorem check_bending_utilisation_witness :
    0 < (check_bending 1 ⟨90, 240⟩ SG8 1 1 1 1).capacity ∧ (1:ℚ) ≤ 2 ∧
    (check_bending 1 ⟨90, 240⟩ SG8 1 1 1 1).utilisation
      ≤ (check_bending 2 ⟨90, 240⟩ SG8 1 1 1 1).utilisation := by
  have hcap : 0 < (check_bending 1 ⟨90, 240⟩ SG8 1 1 1 1).capacity := by
    norm_num [check_bending, TimberSection.Zx, SG8, K4_DRY]
  exact ⟨hcap, by norm_num,
    (check_bending_utilisation 1 2 ⟨90, 240⟩ SG8 1 1 1 1).2.2.2 hcap (by norm_num)⟩

/-- The stability factor always lies in the half-open interval (0, 1]. -/
theorem get_k12_mem_Ioc (r s : ℚ) : 0 < get_k12 r s ∧ get_k12 r s ≤ 1 := by
  simp only [get_k12]
  split_ifs with h1 h2
  · norm_num
  · constructor <;> [linarith; linarith]
  · have hp : (20:ℚ) < r * s := not_le.mp h2
    have hp2 : (0:ℚ) < (r * s) ^ 2 := by nlinarith
    refine ⟨div_pos (by norm_num) hp2, ?_⟩
    rw [div_le_one hp2]
    nlinarith

/-- The stability factor equals exactly 1 precisely when the product
rho_b * S1 does not exceed 10. -/
theorem get_k12_eq_one_iff (r s : ℚ) : get_k12 r s = 1 ↔ r * s ≤ 10 := by
  simp only [get_k12]
  split_ifs with h1 h2
  · simp [h1]
  · have h1' := not_le.mp h1
    constructor
    · intro he; linarith
    · intro hp; exact absurd hp h1
  · have hp : (20:ℚ) < r * s := not_le.mp h2
    have hp2 : (0:ℚ) < (r * s) ^ 2 := by nlinarith
    constructor
    · intro he
      rw [div_eq_one_iff_eq (ne_of_gt hp2)] at he
      nlinarith
    · intro hc; exact absurd hc h1

/-- The stability factor is monotone non-increasing in the product
rho_b * S1. -/
theorem get_k12_antitone (r s r2 s2 : ℚ) (hpq : r * s ≤ r2 * s2) :
    get_k12 r2 s2 ≤ get_k12 r s := by
  simp only [get_k12]
  split_ifs with hq1 hpa hpb hq2 hpc hpd hpe hpf
  · norm_num
  · linarith [not_le.mp hpa]
  · linarith [not_le.mp hpa]
  · linarith [not_le.mp hq1]
  · linarith
  · linarith [not_le.mp hpd]
  · have hq : (20:ℚ) < r2 * s2 := not_le.mp hq2
    have hqq : (0:ℚ) < (r2 * s2) ^ 2 := by nlinarith
    rw [div_le_one hqq]
    nlinarith
  · have hq : (20:ℚ) < r2 * s2 := not_le.mp hq2
    have hqq : (0:ℚ) < (r2 * s2) ^ 2 := by nlinarith
    have hhalf : 200 / (r2 * s2) ^ 2 ≤ 1 / 2 := by
      rw [div_le_div_iff hqq (by norm_num)]
      nlinarith
    linarith [not_le.mp hpe]
  · have hq : (20:ℚ) < r2 * s2 := not_le.mp hq2
    have hp : (20:ℚ) < r * s := not_le.mp hpf
    have hpp : (0:ℚ) < (r * s) ^ 2 := by nlinarith
    have hqq : (0:ℚ) < (r2 * s2) ^ 2 := by nlinarith
    rw [div_le_div_iff hqq hpp]
    nlinarith

/-- The stability factor is continuous at the first piecewise breakpoint:
near product 10 it stays within epsilon of the value 1. -/
theorem get_k12_cont_at_ten (ε : ℚ) (hε : 0 < ε) (r s : ℚ)
    (h : |r * s - 10| < min 1 ε) : |get_k12 r s - 1| < ε := by
  have h1 : |r * s - 10| < 1 := lt_of_lt_of_le h (min_le_left 1 ε)
  have h2 : |r * s - 10| < ε := lt_of_lt_of_le h (min_le_right 1 ε)
  rw [abs_lt] at h1 h2
  simp only [get_k12]
  split_ifs with hb1 hb2
  · simpa using hε
  · rw [abs_lt]
    constructor <;> linarith
  · exfalso
    have := not_le.mp hb2
    linarith

/-- The stability factor is continuous at the second piecewise breakpoint:
near product 20 it stays within epsilon of the value 1/2. -/
theorem get_k12_cont_at_twenty (ε : ℚ) (hε : 0 < ε) (r s : ℚ)
    (h : |r * s - 20| < min 1 ε) : |get_k12 r s - 1 / 2| < ε := by
  have h1 : |r * s - 20| < 1 := lt_of_lt_of_le h (min_le_left 1 ε)
  have h2 : |r * s - 20| < ε := lt_of_lt_of_le h (min_le_right 1 ε)
  rw [abs_lt] at h1 h2
  simp only [get_k12]
  split_ifs with hb1 hb2
  · exfalso; linarith
  · rw [abs_lt]
    constructor <;> linarith
  · have hp : (20:ℚ) < r * s := not_le.mp hb2
    have hpp : (0:ℚ) < (r * s) ^ 2 := by nlinarith
    have hupper : 200 / (r * s) ^ 2 - 1 / 2 < ε := by
      have : 200 / (r * s) ^ 2 < 1 / 2 := by
        rw [div_lt_div_iff hpp (by norm_num)]
        nlinarith
      linarith
    have hlower : -ε < 200 / (r * s) ^ 2 - 1 / 2 := by
      have hgap : 1 / 2 - 200 / (r * s) ^ 2 = ((r * s) ^ 2 - 400) / (2 * (r * s) ^ 2) := by
        field_simp
        ring
      have hlt : ((r * s) ^ 2 - 400) / (2 * (r * s) ^ 2) < ε := by
        rw [div_lt_iff (by nlinarith)]
        nlinarith [mul_lt_mul_of_pos_right h2.2 (show (0:ℚ) < r * s + 20 by linarith),
          mul_pos hε (show (0:ℚ) < (r * s) ^ 2 - 400 by nlinarith),
          mul_lt_mul_of_pos_left h1.2 hε]
      linarith [hgap ▸ hlt]
    rw [abs_lt]
    exact ⟨hlower, hupper⟩

/-- C10: for every rho_b >= 0 and S1 >= 0 the stability factor get_k12 lies
in (0, 1]; it equals 1 exactly when rho_b*S1 <= 10; it is monotone
non-increasing in the product rho_b*S1; and it is continuous across the
piecewise breakpoints at product 10 and product 20 (epsilon-delta form). -/
theorem get_k12_stability (rho_b S1 : ℚ) (h1 : 0 ≤ rho_b) (h2 : 0 ≤ S1) :
    (0 < get_k12 rho_b S1 ∧ get_k12 rho_b S1 ≤ 1) ∧
    (get_k12 rho_b S1 = 1 ↔ rho_b * S1 ≤ 10) ∧
    (∀ r s : ℚ, 0 ≤ r → 0 ≤ s → rho_b * S1 ≤ r * s →
      get_k12 r s ≤ get_k12 rho_b S1) ∧
    (∀ ε : ℚ, 0 < ε → ∃ δ : ℚ, 0 < δ ∧ ∀ r s : ℚ, 0 ≤ r → 0 ≤ s →
      (|r * s - 10| < δ → |get_k12 r s - 1| < ε) ∧
      (|r * s - 20| < δ → |get_k12 r s - 1 / 2| < ε)) := by
  refine ⟨get_k12_mem_Ioc rho_b S1, get_k12_eq_one_iff rho_b S1,
    fun r s _ _ hle => get_k12_antitone rho_b S1 r s hle,
    fun ε hε => ⟨min 1 ε, lt_min one_pos hε, fun r s _ _ => ?_⟩⟩
  exact ⟨get_k12_cont_at_ten ε hε r s, get_k12_cont_at_twenty ε hε r s⟩

/-- Witness for C10 at rho_b = 1, S1 = 12. -/
theorem get_k12_stability_witness :
    (0:ℚ) ≤ 1 ∧ (0:ℚ) ≤ 12 ∧ (0 < get_k12 1 12 ∧ get_k12 1 12 ≤ 1) :=
  ⟨by decide, by decide, (get_k12_stability 1 12 (by decide) (by decide)).1⟩
